import Mathlib

/-!
Shallow embedding of the touch image viewer (`src/main.js`,
`src/utils/math.js`, `src/utils/canvas.js`).

Numbers are modelled by `J`, JavaScript numbers over exact rationals:
a finite value carries a `ℚ`, and the special values `Infinity`,
`-Infinity` and `NaN` are explicit constructors, so the divisions by zero
that the pinch code can perform behave as they do in JavaScript.
(`-0` is not distinguished from `0`; nothing here depends on it.)

`Math.hypot` (used only by `getDistance` in `src/utils/math.js`) takes
irrational values on rational inputs, so the two places its result is
consumed (`startDistance` at touch-start, `currentDistance` at
touch-move) receive that value as an explicit event datum `dist`; the
handlers are otherwise translated line by line from the source.
-/

/-- A JavaScript number: a finite rational, an infinity, or NaN. -/
inductive J where
  | fin : ℚ → J
  | pinf : J
  | ninf : J
  | nan : J
  deriving DecidableEq, Repr

/-- JavaScript addition (`a + b`). -/
def jAdd : J → J → J
  | .nan, _ => .nan
  | _, .nan => .nan
  | .pinf, .ninf => .nan
  | .ninf, .pinf => .nan
  | .pinf, _ => .pinf
  | _, .pinf => .pinf
  | .ninf, _ => .ninf
  | _, .ninf => .ninf
  | .fin a, .fin b => .fin (a + b)

/-- JavaScript negation (`-a`). -/
def jNeg : J → J
  | .fin a => .fin (-a)
  | .pinf => .ninf
  | .ninf => .pinf
  | .nan => .nan

/-- JavaScript subtraction (`a - b`). -/
def jSub (a b : J) : J := jAdd a (jNeg b)

/-- JavaScript multiplication (`a * b`); `0 * Infinity` is NaN. -/
def jMul : J → J → J
  | .nan, _ => .nan
  | _, .nan => .nan
  | .pinf, .pinf => .pinf
  | .pinf, .ninf => .ninf
  | .ninf, .pinf => .ninf
  | .ninf, .ninf => .pinf
  | .pinf, .fin b => if b = 0 then .nan else if 0 < b then .pinf else .ninf
  | .fin a, .pinf => if a = 0 then .nan else if 0 < a then .pinf else .ninf
  | .ninf, .fin b => if b = 0 then .nan else if 0 < b then .ninf else .pinf
  | .fin a, .ninf => if a = 0 then .nan else if 0 < a then .ninf else .pinf
  | .fin a, .fin b => .fin (a * b)

/-- JavaScript division (`a / b`); `x / 0` is a signed infinity for
`x ≠ 0` and NaN for `x = 0`. -/
def jDiv : J → J → J
  | .nan, _ => .nan
  | _, .nan => .nan
  | .pinf, .pinf => .nan
  | .pinf, .ninf => .nan
  | .ninf, .pinf => .nan
  | .ninf, .ninf => .nan
  | .fin _, .pinf => .fin 0
  | .fin _, .ninf => .fin 0
  | .pinf, .fin b => if 0 ≤ b then .pinf else .ninf
  | .ninf, .fin b => if 0 ≤ b then .ninf else .pinf
  | .fin a, .fin b =>
      if b = 0 then (if a = 0 then .nan else if 0 < a then .pinf else .ninf)
      else .fin (a / b)

/-- JavaScript `a <= b`; any comparison with NaN is false. -/
def jLe : J → J → Bool
  | .nan, _ => false
  | _, .nan => false
  | .ninf, _ => true
  | _, .ninf => false
  | _, .pinf => true
  | .pinf, _ => false
  | .fin a, .fin b => decide (a ≤ b)

/-- JavaScript `a < b`; any comparison with NaN is false. -/
def jLt : J → J → Bool
  | .nan, _ => false
  | _, .nan => false
  | .ninf, .ninf => false
  | .ninf, _ => true
  | _, .ninf => false
  | .pinf, _ => false
  | _, .pinf => true
  | .fin a, .fin b => decide (a < b)

/-- JavaScript `a >= b`. -/
def jGe (a b : J) : Bool := jLe b a

/-- JavaScript `a > b`. -/
def jGt (a b : J) : Bool := jLt b a

/-- `Math.min`; NaN if either argument is NaN. -/
def jMin : J → J → J
  | .nan, _ => .nan
  | _, .nan => .nan
  | .ninf, _ => .ninf
  | _, .ninf => .ninf
  | .pinf, b => b
  | a, .pinf => a
  | .fin a, .fin b => .fin (min a b)

/-- `Math.max`; NaN if either argument is NaN. -/
def jMax : J → J → J
  | .nan, _ => .nan
  | _, .nan => .nan
  | .pinf, _ => .pinf
  | _, .pinf => .pinf
  | .ninf, b => b
  | a, .ninf => a
  | .fin a, .fin b => .fin (max a b)

/-- `Math.round`: round half toward positive infinity on finite values,
identity on infinities and NaN. -/
def jRound : J → J
  | .fin a => .fin (((a + 1/2).floor : ℤ) : ℚ)
  | x => x

@[simp] theorem jAdd_fin (a b : ℚ) : jAdd (J.fin a) (J.fin b) = J.fin (a + b) := rfl

@[simp] theorem jNeg_fin (a : ℚ) : jNeg (J.fin a) = J.fin (-a) := rfl

@[simp] theorem jSub_fin (a b : ℚ) : jSub (J.fin a) (J.fin b) = J.fin (a - b) := by
  simp [jSub, sub_eq_add_neg]

@[simp] theorem jMul_fin (a b : ℚ) : jMul (J.fin a) (J.fin b) = J.fin (a * b) := rfl

theorem jDiv_fin {b : ℚ} (a : ℚ) (h : b ≠ 0) :
    jDiv (J.fin a) (J.fin b) = J.fin (a / b) := by
  simp [jDiv, h]

@[simp] theorem jLe_fin (a b : ℚ) : jLe (J.fin a) (J.fin b) = decide (a ≤ b) := rfl

@[simp] theorem jLt_fin (a b : ℚ) : jLt (J.fin a) (J.fin b) = decide (a < b) := rfl

@[simp] theorem jGe_fin (a b : ℚ) : jGe (J.fin a) (J.fin b) = decide (b ≤ a) := rfl

@[simp] theorem jGt_fin (a b : ℚ) : jGt (J.fin a) (J.fin b) = decide (b < a) := rfl

@[simp] theorem jMin_fin (a b : ℚ) : jMin (J.fin a) (J.fin b) = J.fin (min a b) := rfl

@[simp] theorem jMax_fin (a b : ℚ) : jMax (J.fin a) (J.fin b) = J.fin (max a b) := rfl

/-- A 2D point in surface pixels (`{x, y}` objects of the source). -/
structure PointJ where
  x : J
  y : J
  deriving DecidableEq, Repr

/-- An axis-aligned rectangle (`{x, y, width, height}` objects). -/
structure RectJ where
  x : J
  y : J
  width : J
  height : J
  deriving DecidableEq, Repr

/-- `isPointInsideArea` from `src/utils/math.js`: closed-boundary
point-in-rectangle test. -/
def isPointInsideArea (point : PointJ) (rect : RectJ) : Bool :=
  jGe point.x rect.x &&
  jLe point.x (jAdd rect.x rect.width) &&
  jGe point.y rect.y &&
  jLe point.y (jAdd rect.y rect.height)

/-- `isRectInside` from `src/utils/math.js`: is `rectangleA` completely
inside `rectangleB`. -/
def isRectInside (rectangleA rectangleB : RectJ) : Bool :=
  jGe rectangleA.x rectangleB.x &&
  jLe (jAdd rectangleA.x rectangleA.width) (jAdd rectangleB.x rectangleB.width) &&
  jGe rectangleA.y rectangleB.y &&
  jLe (jAdd rectangleA.y rectangleA.height) (jAdd rectangleB.y rectangleB.height)

/-- The result record of `getInitialDestinationInfo`
(`{desX, desY, desW, desH}`). -/
structure FitInfo where
  desX : J
  desY : J
  desW : J
  desH : J
  deriving DecidableEq, Repr

/-- `getInitialDestinationInfo` from `src/utils/canvas.js`, with the image's
`naturalWidth`/`naturalHeight` and the canvas's `width`/`height` passed as
numbers. -/
def getInitialDestinationInfo (naturalWidth naturalHeight width height : J) : FitInfo :=
  let imgRatio := jDiv naturalWidth naturalHeight
  let canvasRatio := jDiv width height
  let imgIsLandscape := jGe imgRatio (J.fin 1)
  let canvasIsLandscape := jGe canvasRatio (J.fin 1)
  if imgIsLandscape && canvasIsLandscape then
    if jGt imgRatio canvasRatio then
      let desW := width
      let desH := jDiv (jMul width naturalHeight) naturalWidth
      let desY := jDiv (jSub height desH) (J.fin 2)
      ⟨J.fin 0, desY, desW, desH⟩
    else
      let desH := height
      let desW := jDiv (jMul height naturalWidth) naturalHeight
      let desX := jDiv (jSub width desW) (J.fin 2)
      ⟨desX, J.fin 0, desW, desH⟩
  else if !imgIsLandscape && !canvasIsLandscape then
    if jGt imgRatio canvasRatio then
      let desW := width
      let desH := jMul naturalHeight (jDiv width naturalWidth)
      let desY := jDiv (jSub height desH) (J.fin 2)
      ⟨J.fin 0, desY, desW, desH⟩
    else
      let desH := height
      let desW := jMul naturalWidth (jDiv height naturalHeight)
      let desX := jDiv (jSub width desW) (J.fin 2)
      ⟨desX, J.fin 0, desW, desH⟩
  else if imgIsLandscape && !canvasIsLandscape then
    let desW := width
    let desH := jMul naturalHeight (jDiv width naturalWidth)
    let desY := jDiv (jNeg (jSub desH height)) (J.fin 2)
    ⟨J.fin 0, desY, desW, desH⟩
  else
    let desH := height
    let desW := jMul naturalWidth (jDiv height naturalHeight)
    let desX := jDiv (jNeg (jSub desW width)) (J.fin 2)
    ⟨desX, J.fin 0, desW, desH⟩

/-- The mutable module-level state of `src/main.js` that the gesture code
reads and writes: the gesture flags, pinch bookkeeping, the viewport
transform (`desPos`, `scale`, `desWidth`, `desHeight`), the pan bookkeeping
(`startPos`, `diff`), the rounded `drawInfo`, and the canvas's pixel size
(`canvas.width`/`canvas.height`, set by `startAnimation` and read by the
touch-end handler). -/
structure AppState where
  isPinching : Bool
  isPanning : Bool
  startDistance : J
  scale : J
  baseScale : J
  desWidth : J
  desHeight : J
  pinchMidPoint : Option PointJ
  desPos : PointJ
  startPos : PointJ
  diff : PointJ
  drawInfo : RectJ
  canvasW : J
  canvasH : J
  deriving DecidableEq, Repr

/-- The environment of a touch handler: `canvas.getBoundingClientRect()`,
whose `x`/`left`, `y`/`top`, `width` and `height` the handlers read. -/
structure Env where
  rectX : J
  rectY : J
  rectW : J
  rectH : J
  deriving DecidableEq, Repr

/-- The image rectangle the handlers build repeatedly:
`{x: desPos.x, y: desPos.y, width: desWidth * scale, height: desHeight * scale}`. -/
def imageRectOf (s : AppState) : RectJ :=
  ⟨s.desPos.x, s.desPos.y, jMul s.desWidth s.scale, jMul s.desHeight s.scale⟩

/-- The canvas rectangle the touch-end handler builds:
`{x: 0, y: 0, width: canvas.width, height: canvas.height}`. -/
def canvasRectOf (s : AppState) : RectJ :=
  ⟨J.fin 0, J.fin 0, s.canvasW, s.canvasH⟩

/-- `resetAppState` from `src/main.js` (lines 79–85). -/
def resetAppState (s : AppState) : AppState :=
  { s with isPinching := false, isPanning := false, startDistance := J.fin 0,
           scale := J.fin 1, baseScale := J.fin 1 }

/-- `updateDrawInfo` from `src/main.js` (lines 151–156): recompute the
rounded draw rectangle from the live state. -/
def updateDrawInfo (s : AppState) : AppState :=
  { s with drawInfo := ⟨jRound s.desPos.x, jRound s.desPos.y,
                        jRound (jMul s.desWidth s.scale),
                        jRound (jMul s.desHeight s.scale)⟩ }

/-- The state effect of one `animate` frame (lines 158–171): `clearRect`,
`draw`, `drawDebug` and `updateMetricBoard` only read the state, so the
frame's effect on the state is exactly `updateDrawInfo`. -/
def animate (s : AppState) : AppState := updateDrawInfo s

/-- `startAnimation` from `src/main.js` (lines 173–186): set the canvas
pixel size, recompute the fit, overwrite `desPos`/`desWidth`/`desHeight`,
and run a frame.  `imgW`/`imgH` are the image's natural dimensions. -/
def startAnimation (s : AppState) (imgW imgH w h : J) : AppState :=
  let s0 := { s with canvasW := w, canvasH := h }
  let fit := getInitialDestinationInfo imgW imgH w h
  animate { s0 with desPos := ⟨fit.desX, fit.desY⟩,
                    desWidth := fit.desW, desHeight := fit.desH }

/-- The state effect of the `imgSelectEl` change listener (lines 342–345):
it swaps the image source (so the image's natural dimensions change
externally) and calls `resetAppState`; the subsequent `load` event then
calls `startAnimation`. -/
def imgSelectChange (s : AppState) : AppState := resetAppState s

/-- The `touchstart` handler (lines 216–236).  `touches` are the client
coordinates of `e.touches`; `dist` is the value of
`getDistance(e.touches[0], e.touches[1])` (`Math.hypot`, supplied as event
datum), read only in the two-touch branch. -/
def touchstart (s : AppState) (env : Env) (touches : List PointJ) (dist : J) : AppState :=
  match touches with
  | [t0] =>
      let sp : PointJ := ⟨jSub t0.x env.rectX, jSub t0.y env.rectY⟩
      { s with isPanning := true, isPinching := false, startPos := sp,
               diff := ⟨jSub sp.x s.desPos.x, jSub sp.y s.desPos.y⟩ }
  | [_, _] =>
      { s with isPinching := true, isPanning := false,
               startDistance := dist, baseScale := s.scale }
  | _ => s

/-- Lines 272–302 of the `touchmove` handler (the `isPinching` block).
`dist` is the value of `getDistance(e.touches[0], e.touches[1])`
(`currentDistance`).  Accessing a missing touch throws a `TypeError`,
modelled as `Except.error` carrying the state at the throw; the throw in
`getDistance`'s argument list happens before `pinchMidPoint` is assigned. -/
def pinchStep (s : AppState) (env : Env) (touches : List PointJ) (dist : J) :
    Except AppState AppState :=
  if s.isPinching then
    match touches.get? 0, touches.get? 1 with
    | some t0, some t1 =>
        let mid : PointJ :=
          ⟨jSub (jDiv (jAdd t0.x t1.x) (J.fin 2)) env.rectX,
           jSub (jDiv (jAdd t0.y t1.y) (J.fin 2)) env.rectY⟩
        let s2 := { s with pinchMidPoint := some mid }
        if !(isPointInsideArea mid (imageRectOf s2)) then .ok s2
        else
          let prevScale := s2.scale
          let pinchScale := jDiv dist s2.startDistance
          let newScale := jMul s2.baseScale pinchScale
          let clamped := jMax (J.fin (1/2)) (jMin (J.fin 10) newScale)
          let scaleFactor := jDiv clamped prevScale
          .ok { s2 with scale := clamped,
                        desPos := ⟨jSub mid.x (jMul (jSub mid.x s2.desPos.x) scaleFactor),
                                   jSub mid.y (jMul (jSub mid.y s2.desPos.y) scaleFactor)⟩ }
    | _, _ => .error s
  else .ok s

/-- The `touchmove` handler (lines 238–303).  The pan block runs first;
its two `return` paths end the handler, its fall-through path (anchor
inside the canvas but outside the image) continues into the pinch block.
Accessing a missing touch throws, modelled as `Except.error` with the
state at the throw (`e.touches[0].clientX` is read before `startPos` is
assigned). -/
def touchmove (s : AppState) (env : Env) (touches : List PointJ) (dist : J) :
    Except AppState AppState :=
  let imageRect := imageRectOf s
  if s.isPanning then
    match touches.get? 0 with
    | none => .error s
    | some t0 =>
        let canvasRect : RectJ := ⟨J.fin 0, J.fin 0, env.rectW, env.rectH⟩
        let sp : PointJ := ⟨jSub t0.x env.rectX, jSub t0.y env.rectY⟩
        let s1 := { s with startPos := sp }
        if !(isPointInsideArea sp canvasRect) then .ok s1
        else if isPointInsideArea sp imageRect then
          .ok { s1 with desPos := ⟨jSub sp.x s1.diff.x, jSub sp.y s1.diff.y⟩ }
        else
          pinchStep { s1 with diff := ⟨jSub sp.x s1.desPos.x, jSub sp.y s1.desPos.y⟩ }
            env touches dist
  else pinchStep s env touches dist

/-- The `touchend` handler (lines 305–335).  Note the argument order of the
containment test in the source: `isRectInside(canvasRect, imageRect)` asks
whether the canvas is completely inside the image.  `imgW`/`imgH` are the
image's natural dimensions. -/
def touchend (s : AppState) (imgW imgH : J) : AppState :=
  let canvasRect := canvasRectOf s
  let imageRect := imageRectOf s
  let s1 :=
    if !(isRectInside canvasRect imageRect) then
      let fit := getInitialDestinationInfo imgW imgH s.canvasW s.canvasH
      { s with desPos := ⟨fit.desX, fit.desY⟩, desWidth := fit.desW,
               desHeight := fit.desH, scale := J.fin 1, baseScale := J.fin 1 }
    else s
  { s1 with isPanning := false, isPinching := false, startDistance := J.fin 0 }

/-- A concrete reference state: a 100×100 image placement at the origin of
a 300×300 canvas, `scale = 1`, no gesture active. -/
def baseState : AppState :=
  { isPinching := false, isPanning := false, startDistance := J.fin 0,
    scale := J.fin 1, baseScale := J.fin 1, desWidth := J.fin 100,
    desHeight := J.fin 100, pinchMidPoint := none,
    desPos := ⟨J.fin 0, J.fin 0⟩, startPos := ⟨J.fin 0, J.fin 0⟩,
    diff := ⟨J.fin 0, J.fin 0⟩, drawInfo := ⟨J.fin 0, J.fin 0, J.fin 0, J.fin 0⟩,
    canvasW := J.fin 300, canvasH := J.fin 300 }

/-- A concrete environment: the canvas's bounding client rectangle sits at
the screen origin with a 300×300 layout size. -/
def env300 : Env := ⟨J.fin 0, J.fin 0, J.fin 300, J.fin 300⟩

/-- Claim C9: a renderer frame computes the integer-rounded draw rectangle
`(round desPos.x, round desPos.y, round (desWidth*scale),
round (desHeight*scale))` as a derived value only; the frame tick leaves
the authoritative unrounded fields `desPos`, `scale`, `desWidth`,
`desHeight` unchanged. -/
theorem claim_c9_frame_rounding (s : AppState) :
    (animate s).desPos = s.desPos ∧
    (animate s).scale = s.scale ∧
    (animate s).desWidth = s.desWidth ∧
    (animate s).desHeight = s.desHeight ∧
    (animate s).drawInfo = ⟨jRound s.desPos.x, jRound s.desPos.y,
                            jRound (jMul s.desWidth s.scale),
                            jRound (jMul s.desHeight s.scale)⟩ :=
  ⟨rfl, rfl, rfl, rfl, rfl⟩

/-- Claim C10: the containment tests use closed boundaries: for finite
values and a rectangle of nonnegative width and height,
`isPointInsideArea` holds iff `r.x ≤ p.x ≤ r.x + r.width` and
`r.y ≤ p.y ≤ r.y + r.height`; a point exactly on the rectangle's corner
counts as inside; and `isRectInside` is reflexive. -/
theorem claim_c10_closed_boundaries (px py rx ry rw rh : ℚ)
    (hw : 0 ≤ rw) (hh : 0 ≤ rh) :
    (isPointInsideArea ⟨J.fin px, J.fin py⟩ ⟨J.fin rx, J.fin ry, J.fin rw, J.fin rh⟩ = true ↔
      (rx ≤ px ∧ px ≤ rx + rw ∧ ry ≤ py ∧ py ≤ ry + rh)) ∧
    isPointInsideArea ⟨J.fin rx, J.fin ry⟩ ⟨J.fin rx, J.fin ry, J.fin rw, J.fin rh⟩ = true ∧
    isRectInside ⟨J.fin rx, J.fin ry, J.fin rw, J.fin rh⟩
      ⟨J.fin rx, J.fin ry, J.fin rw, J.fin rh⟩ = true := by
  refine ⟨?_, ?_, ?_⟩
  · simp [isPointInsideArea, and_assoc]
  · simp [isPointInsideArea]
    constructor <;> linarith
  · simp [isRectInside]

/-- Witness for C10 at a concrete input: the point `(30, 5)` and the
rectangle `(10, 5, 20, 40)`; the point lies exactly on two edges. -/
theorem claim_c10_closed_boundaries_witness :
    (isPointInsideArea ⟨J.fin 30, J.fin 5⟩ ⟨J.fin 10, J.fin 5, J.fin 20, J.fin 40⟩ = true ↔
      ((10:ℚ) ≤ 30 ∧ (30:ℚ) ≤ 10 + 20 ∧ (5:ℚ) ≤ 5 ∧ (5:ℚ) ≤ 5 + 40)) ∧
    isPointInsideArea ⟨J.fin 10, J.fin 5⟩ ⟨J.fin 10, J.fin 5, J.fin 20, J.fin 40⟩ = true ∧
    isRectInside ⟨J.fin 10, J.fin 5, J.fin 20, J.fin 40⟩
      ⟨J.fin 10, J.fin 5, J.fin 20, J.fin 40⟩ = true :=
  claim_c10_closed_boundaries 30 5 10 5 20 40 (by norm_num) (by norm_num)

/-- Claim C8: out-of-range touch counts leave the state untouched: a
touch-start with three or more touches changes nothing, and a touch-move
with fewer touches than the active gesture expects (one or zero touches
while pinching, zero while panning) aborts with a `TypeError` before any
field is written, so the state is unchanged. -/
theorem claim_c8_out_of_range (s : AppState) (env : Env) (touches : List PointJ) (dist : J) :
    (3 ≤ touches.length → touchstart s env touches dist = s) ∧
    (s.isPinching = true → s.isPanning = false → touches.length ≤ 1 →
      touchmove s env touches dist = Except.error s) ∧
    (s.isPanning = true → touches = [] → touchmove s env touches dist = Except.error s) := by
  refine ⟨?_, ?_, ?_⟩
  · intro hlen
    match touches, hlen with
    | _ :: _ :: _ :: _, _ => rfl
  · intro hpin hpan hlen
    match touches, hlen with
    | [], _ => simp [touchmove, hpan, pinchStep, hpin]
    | [t0], _ => simp [touchmove, hpan, pinchStep, hpin]
  · intro hpan htouches
    subst htouches
    simp [touchmove, hpan]

/-- Witness for C8: a three-finger touch-start on the reference state is a
no-op, and short touch-moves while pinching or panning abort unchanged. -/
theorem claim_c8_out_of_range_witness :
    touchstart baseState env300
      [⟨J.fin 1, J.fin 1⟩, ⟨J.fin 2, J.fin 2⟩, ⟨J.fin 3, J.fin 3⟩] (J.fin 5) = baseState ∧
    touchmove { baseState with isPinching := true } env300 [⟨J.fin 4, J.fin 4⟩] (J.fin 0) =
      Except.error { baseState with isPinching := true } ∧
    touchmove { baseState with isPanning := true } env300 [] (J.fin 0) =
      Except.error { baseState with isPanning := true } :=
  ⟨(claim_c8_out_of_range baseState env300 _ _).1 (by norm_num),
   (claim_c8_out_of_range { baseState with isPinching := true } env300 _ _).2.1 rfl rfl
     (by norm_num),
   (claim_c8_out_of_range { baseState with isPanning := true } env300 _ _).2.2 rfl rfl⟩

/-- The state for the C1 counterexample: the 300×150 image placement sits
at `(0, 80)`, strictly inside the 300×300 canvas, with `scale = 1`. -/
def c1State : AppState :=
  { baseState with desPos := ⟨J.fin 0, J.fin 80⟩,
                   desWidth := J.fin 300, desHeight := J.fin 150 }

/-- Claim C1 is false on the code: here the image's displayed rectangle
`(0, 80, 300, 150)` is fully contained in the canvas rectangle
`(0, 0, 300, 300)`, so the claim requires touch-end to leave `desPos`
unchanged, yet the handler snaps back (it tests whether the *canvas* is
inside the *image*: `isRectInside(canvasRect, imageRect)`), moving
`desPos.y` from `80` to the refitted `75`. -/
theorem claim_c1_counterexample :
    isRectInside (imageRectOf c1State) (canvasRectOf c1State) = true ∧
    (touchend c1State (J.fin 1000) (J.fin 500)).desPos.y ≠ c1State.desPos.y := by
  constructor
  · norm_num [c1State, baseState, imageRectOf, canvasRectOf, isRectInside]
  · norm_num [c1State, baseState, imageRectOf, canvasRectOf, isRectInside, touchend,
      getInitialDestinationInfo, jGe, jLe, jGt, jLt, jDiv]

/-- Claim C1 as amended: on touch-end, snap-back occurs iff the *surface's*
rectangle is not fully contained in the image's displayed rectangle (the
code passes the canvas rectangle as the inner argument of the
rect-inside-rect test); in that case `offset`/`baseWidth`/`baseHeight` are
reset to the fit recomputed for the live canvas size and `scale` and
`baseScale` reset to `1`; otherwise all fields are unchanged except the
gesture flags cleared and `startDistance` zeroed. -/
theorem claim_c1_touchend_snapback (s : AppState) (imgW imgH : J) :
    (isRectInside (canvasRectOf s) (imageRectOf s) = true →
      touchend s imgW imgH =
        { s with isPanning := false, isPinching := false, startDistance := J.fin 0 }) ∧
    (isRectInside (canvasRectOf s) (imageRectOf s) = false →
      touchend s imgW imgH =
        { s with desPos := ⟨(getInitialDestinationInfo imgW imgH s.canvasW s.canvasH).desX,
                            (getInitialDestinationInfo imgW imgH s.canvasW s.canvasH).desY⟩,
                 desWidth := (getInitialDestinationInfo imgW imgH s.canvasW s.canvasH).desW,
                 desHeight := (getInitialDestinationInfo imgW imgH s.canvasW s.canvasH).desH,
                 scale := J.fin 1, baseScale := J.fin 1,
                 isPanning := false, isPinching := false, startDistance := J.fin 0 }) := by
  constructor <;> intro h <;> simp [touchend, h]

/-- Witness for the amended C1 at the concrete state `c1State`, whose image
does not cover the canvas, so the snap-back branch fires. -/
theorem claim_c1_touchend_snapback_witness :
    touchend c1State (J.fin 1000) (J.fin 500) =
      { c1State with
          desPos := ⟨(getInitialDestinationInfo (J.fin 1000) (J.fin 500)
                        c1State.canvasW c1State.canvasH).desX,
                     (getInitialDestinationInfo (J.fin 1000) (J.fin 500)
                        c1State.canvasW c1State.canvasH).desY⟩,
          desWidth := (getInitialDestinationInfo (J.fin 1000) (J.fin 500)
                        c1State.canvasW c1State.canvasH).desW,
          desHeight := (getInitialDestinationInfo (J.fin 1000) (J.fin 500)
                        c1State.canvasW c1State.canvasH).desH,
          scale := J.fin 1, baseScale := J.fin 1,
          isPanning := false, isPinching := false, startDistance := J.fin 0 } :=
  (claim_c1_touchend_snapback c1State (J.fin 1000) (J.fin 500)).2
    (by norm_num [c1State, baseState, imageRectOf, canvasRectOf, isRectInside])

/-- Claim C6 is false on the code: resizing the surface (`startAnimation`)
recomputes the fit but leaves `scale` untouched; starting from `scale = 2`
it stays `2`, not `1` as the claim requires. -/
theorem claim_c6_counterexample :
    (startAnimation { baseState with scale := J.fin 2 }
        (J.fin 1000) (J.fin 500) (J.fin 300) (J.fin 300)).scale = J.fin 2 ∧
    (J.fin (2:ℚ)) ≠ J.fin 1 := by
  constructor
  · rfl
  · simp

/-- Claim C6 as amended: on surface resize, `offset` and the base
width/height are overwritten with the recomputed fit but `scale` retains
its current value; on image-source change (the change listener's
`resetAppState` followed by the load listener's `startAnimation`) the fit
is recomputed and `scale` returns to `1`; and on a touch-end whose
containment test fails, the fit is recomputed and `scale` returns to `1`. -/
theorem claim_c6_lifecycle_reset (s : AppState) (imgW imgH w h : J) :
    ((startAnimation s imgW imgH w h).desPos =
        ⟨(getInitialDestinationInfo imgW imgH w h).desX,
         (getInitialDestinationInfo imgW imgH w h).desY⟩ ∧
     (startAnimation s imgW imgH w h).desWidth = (getInitialDestinationInfo imgW imgH w h).desW ∧
     (startAnimation s imgW imgH w h).desHeight = (getInitialDestinationInfo imgW imgH w h).desH ∧
     (startAnimation s imgW imgH w h).scale = s.scale) ∧
    ((startAnimation (imgSelectChange s) imgW imgH w h).desPos =
        ⟨(getInitialDestinationInfo imgW imgH w h).desX,
         (getInitialDestinationInfo imgW imgH w h).desY⟩ ∧
     (startAnimation (imgSelectChange s) imgW imgH w h).scale = J.fin 1) ∧
    (isRectInside (canvasRectOf s) (imageRectOf s) = false →
      (touchend s imgW imgH).desPos =
        ⟨(getInitialDestinationInfo imgW imgH s.canvasW s.canvasH).desX,
         (getInitialDestinationInfo imgW imgH s.canvasW s.canvasH).desY⟩ ∧
      (touchend s imgW imgH).scale = J.fin 1) := by
  refine ⟨⟨rfl, rfl, rfl, rfl⟩, ⟨rfl, rfl⟩, ?_⟩
  intro hout
  simp [touchend, hout]

/-- Witness for the amended C6 at `c1State`, exercising the touch-end
snap-back conjunct as well as the two unconditional ones. -/
theorem claim_c6_lifecycle_reset_witness :
    (touchend c1State (J.fin 1000) (J.fin 500)).desPos =
      ⟨(getInitialDestinationInfo (J.fin 1000) (J.fin 500) c1State.canvasW c1State.canvasH).desX,
       (getInitialDestinationInfo (J.fin 1000) (J.fin 500) c1State.canvasW c1State.canvasH).desY⟩ ∧
    (touchend c1State (J.fin 1000) (J.fin 500)).scale = J.fin 1 :=
  (claim_c6_lifecycle_reset c1State (J.fin 1000) (J.fin 500)
      (J.fin 300) (J.fin 300)).2.2
    (by norm_num [c1State, baseState, imageRectOf, canvasRectOf, isRectInside])

/-- The state for the C5 counterexample: panning is active, the 100×100
image placement sits at `(10, 10)` on the 300×300 canvas, and the gap
vector is `(0, 0)`. -/
def c5State : AppState :=
  { baseState with isPanning := true, desPos := ⟨J.fin 10, J.fin 10⟩ }

/-- Claim C5 is false on the code: the pan-move anchor `(-5, 20)` lies
outside the image rectangle `(10, 10, 100, 100)`, so the claim requires
the gap vector to become `anchorPoint - offset = (-15, 10)`; but the
anchor also lies outside the canvas rectangle, so the handler returns
early and the gap vector stays `(0, 0)` (only the recorded anchor point
`startPos` is updated). -/
theorem claim_c5_counterexample :
    isPointInsideArea ⟨J.fin (-5), J.fin 20⟩ (imageRectOf c5State) = false ∧
    touchmove c5State env300 [⟨J.fin (-5), J.fin 20⟩] (J.fin 0) =
      Except.ok { c5State with startPos := ⟨J.fin (-5), J.fin 20⟩ } ∧
    ({ c5State with startPos := ⟨J.fin (-5), J.fin 20⟩ } : AppState).diff ≠
      ⟨jSub (J.fin (-5)) (J.fin 10), jSub (J.fin 20) (J.fin 10)⟩ := by
  refine ⟨?_, ?_, ?_⟩
  · norm_num [c5State, baseState, imageRectOf, isPointInsideArea]
  · norm_num [c5State, baseState, env300, touchmove, imageRectOf, isPointInsideArea]
  · norm_num [c5State, baseState]

/-- Claim C5 as amended: for a pan touch-move with a single touch, let the
anchor be the touch translated to surface coordinates.  If the anchor lies
outside the canvas rectangle the event only records the anchor
(`startPos`), leaving `offset` and the gap vector unchanged.  Otherwise,
if the anchor lies inside the image's displayed rectangle, `offset`
becomes `anchor - gap` and the gap is unchanged; if it lies outside the
image rectangle, `offset` is unchanged and the gap becomes
`anchor - offset`. -/
theorem claim_c5_pan_containment (s : AppState) (env : Env) (t0 : PointJ) (dist : J)
    (hpan : s.isPanning = true) (hpin : s.isPinching = false) :
    (isPointInsideArea ⟨jSub t0.x env.rectX, jSub t0.y env.rectY⟩
        ⟨J.fin 0, J.fin 0, env.rectW, env.rectH⟩ = false →
      touchmove s env [t0] dist =
        Except.ok { s with startPos := ⟨jSub t0.x env.rectX, jSub t0.y env.rectY⟩ }) ∧
    (isPointInsideArea ⟨jSub t0.x env.rectX, jSub t0.y env.rectY⟩
        ⟨J.fin 0, J.fin 0, env.rectW, env.rectH⟩ = true →
     isPointInsideArea ⟨jSub t0.x env.rectX, jSub t0.y env.rectY⟩ (imageRectOf s) = true →
      touchmove s env [t0] dist =
        Except.ok { s with startPos := ⟨jSub t0.x env.rectX, jSub t0.y env.rectY⟩,
                           desPos := ⟨jSub (jSub t0.x env.rectX) s.diff.x,
                                      jSub (jSub t0.y env.rectY) s.diff.y⟩ }) ∧
    (isPointInsideArea ⟨jSub t0.x env.rectX, jSub t0.y env.rectY⟩
        ⟨J.fin 0, J.fin 0, env.rectW, env.rectH⟩ = true →
     isPointInsideArea ⟨jSub t0.x env.rectX, jSub t0.y env.rectY⟩ (imageRectOf s) = false →
      touchmove s env [t0] dist =
        Except.ok { s with startPos := ⟨jSub t0.x env.rectX, jSub t0.y env.rectY⟩,
                           diff := ⟨jSub (jSub t0.x env.rectX) s.desPos.x,
                                    jSub (jSub t0.y env.rectY) s.desPos.y⟩ }) := by
  refine ⟨?_, ?_, ?_⟩
  · intro hout
    simp [touchmove, hpan, hout]
  · intro hin himg
    simp [touchmove, hpan, hin, himg]
  · intro hin himg
    simp [touchmove, hpan, hin, himg, pinchStep, hpin]

/-- Witness for the amended C5, exercising all three branches on concrete
inputs: an anchor off the canvas, an anchor on the image, and an anchor on
the canvas margin beside the image. -/
theorem claim_c5_pan_containment_witness :
    touchmove c5State env300 [⟨J.fin (-5), J.fin 20⟩] (J.fin 0) =
      Except.ok { c5State with startPos := ⟨J.fin (-5), J.fin 20⟩ } ∧
    touchmove c5State env300 [⟨J.fin 50, J.fin 50⟩] (J.fin 0) =
      Except.ok { c5State with startPos := ⟨J.fin 50, J.fin 50⟩,
                               desPos := ⟨J.fin 50, J.fin 50⟩ } ∧
    touchmove c5State env300 [⟨J.fin 200, J.fin 5⟩] (J.fin 0) =
      Except.ok { c5State with startPos := ⟨J.fin 200, J.fin 5⟩,
                               diff := ⟨J.fin 190, J.fin (-5)⟩ } := by
  refine ⟨?_, ?_, ?_⟩
  · have h := (claim_c5_pan_containment c5State env300 ⟨J.fin (-5), J.fin 20⟩ (J.fin 0)
        rfl rfl).1 (by norm_num [env300, isPointInsideArea])
    rw [h]
    norm_num [c5State, baseState, env300]
  · have h := (claim_c5_pan_containment c5State env300 ⟨J.fin 50, J.fin 50⟩ (J.fin 0)
        rfl rfl).2.1 (by norm_num [env300, isPointInsideArea])
      (by norm_num [c5State, baseState, env300, imageRectOf, isPointInsideArea])
    rw [h]
    norm_num [c5State, baseState, env300]
  · have h := (claim_c5_pan_containment c5State env300 ⟨J.fin 200, J.fin 5⟩ (J.fin 0)
        rfl rfl).2.2 (by norm_num [env300, isPointInsideArea])
      (by norm_num [c5State, baseState, env300, imageRectOf, isPointInsideArea])
    rw [h]
    norm_num [c5State, baseState, env300]

/-- Claim C3 fails as stated, on the code's own degenerate path: starting
from `scale = 1`, a two-finger touch-start with coincident fingers stores
`startDistance = 0` (the value of `Math.hypot(0, 0)`), and the next
pinch-move with still-coincident fingers over the image computes
`0 / 0 = NaN`, which `Math.min`/`Math.max` propagate, so `scale` becomes
NaN — outside the closed interval `[0.5, 10]` the claim asserts. -/
theorem claim_c3_scale_nan :
    baseState.scale = J.fin 1 ∧
    (touchmove
        (touchstart baseState env300 [⟨J.fin 50, J.fin 50⟩, ⟨J.fin 50, J.fin 50⟩] (J.fin 0))
        env300 [⟨J.fin 50, J.fin 50⟩, ⟨J.fin 50, J.fin 50⟩] (J.fin 0)).map AppState.scale =
      Except.ok J.nan := by
  refine ⟨rfl, ?_⟩
  norm_num [touchstart, touchmove, pinchStep, baseState, env300, imageRectOf,
    isPointInsideArea, List.get?, jDiv, jMul, jMin, jMax, jAdd, jSub, jNeg,
    Except.map, min_def, max_def]

/-- Claim C4 fails on the code: after a two-finger touch-start with
coincident fingers (`startDistance = 0`), a pinch-move with the fingers
now 20 apart over the image computes `20 / 0 = Infinity`; the clamp turns
it into `10`, so `scale` jumps from `1` to `10` instead of being left
unchanged as the claim requires (and with coincident fingers on the move,
`0 / 0` makes `scale` NaN, see the C3 theorem). -/
theorem claim_c4_degenerate_pinch :
    (touchstart baseState env300 [⟨J.fin 50, J.fin 50⟩, ⟨J.fin 50, J.fin 50⟩]
        (J.fin 0)).startDistance = J.fin 0 ∧
    (touchstart baseState env300 [⟨J.fin 50, J.fin 50⟩, ⟨J.fin 50, J.fin 50⟩]
        (J.fin 0)).scale = J.fin 1 ∧
    (touchmove
        (touchstart baseState env300 [⟨J.fin 50, J.fin 50⟩, ⟨J.fin 50, J.fin 50⟩] (J.fin 0))
        env300 [⟨J.fin 40, J.fin 50⟩, ⟨J.fin 60, J.fin 50⟩] (J.fin 20)).map AppState.scale =
      Except.ok (J.fin 10) := by
  refine ⟨rfl, rfl, ?_⟩
  norm_num [touchstart, touchmove, pinchStep, baseState, env300, imageRectOf,
    isPointInsideArea, List.get?, jDiv, jMul, jMin, jMax, jAdd, jSub, jNeg,
    Except.map, min_def, max_def]

/-- Claim C7: for strictly positive image natural dimensions and canvas
dimensions, the fit calculator returns a placement whose width/height
ratio equals the image's natural ratio exactly in rational arithmetic
(stated by cross-multiplication, `desW * ih = desH * iw`, together with
strict positivity of the computed sides), in all four orientation cases. -/
theorem claim_c7_fit_aspect (iw ih cw ch : ℚ)
    (h1 : 0 < iw) (h2 : 0 < ih) (h3 : 0 < cw) (h4 : 0 < ch) :
    jMul (getInitialDestinationInfo (J.fin iw) (J.fin ih) (J.fin cw) (J.fin ch)).desW
        (J.fin ih) =
      jMul (getInitialDestinationInfo (J.fin iw) (J.fin ih) (J.fin cw) (J.fin ch)).desH
        (J.fin iw) ∧
    jLt (J.fin 0)
      (getInitialDestinationInfo (J.fin iw) (J.fin ih) (J.fin cw) (J.fin ch)).desW = true ∧
    jLt (J.fin 0)
      (getInitialDestinationInfo (J.fin iw) (J.fin ih) (J.fin cw) (J.fin ch)).desH = true := by
  have hiw : iw ≠ 0 := h1.ne'
  have hih : ih ≠ 0 := h2.ne'
  have hch : ch ≠ 0 := h4.ne'
  by_cases hA : (1:ℚ) ≤ iw / ih <;> by_cases hB : (1:ℚ) ≤ cw / ch <;>
    by_cases hC : cw / ch < iw / ih <;>
    (refine ⟨?_, ?_, ?_⟩ <;>
      simp [getInitialDestinationInfo, jDiv_fin, hiw, hih, hch, hA, hB, hC] <;>
      (try field_simp) <;>
      first
      | assumption
      | ring)

/-- Witness for C7 at the spec's own example: a 1000×500 image on a
300×300 canvas. -/
theorem claim_c7_fit_aspect_witness :
    jMul (getInitialDestinationInfo (J.fin 1000) (J.fin 500) (J.fin 300) (J.fin 300)).desW
        (J.fin 500) =
      jMul (getInitialDestinationInfo (J.fin 1000) (J.fin 500) (J.fin 300) (J.fin 300)).desH
        (J.fin 1000) ∧
    jLt (J.fin 0)
      (getInitialDestinationInfo (J.fin 1000) (J.fin 500) (J.fin 300) (J.fin 300)).desW = true ∧
    jLt (J.fin 0)
      (getInitialDestinationInfo (J.fin 1000) (J.fin 500) (J.fin 300) (J.fin 300)).desH = true :=
  claim_c7_fit_aspect 1000 500 300 300 (by norm_num) (by norm_num) (by norm_num) (by norm_num)

/-- Claim C2: for a pinch touch-move whose midpoint lies inside the
image's displayed rectangle, the update
`offset = midpoint - (midpoint - offset) * (newScale / prevScale)` leaves
the midpoint a fixed point of the offset/scale transform: if the image
point with parameter `(tx, ty)` (position `offset + t * base * scale`) was
drawn at the midpoint before the update, it is drawn at the midpoint after
the update, exactly, in the unrounded state. -/
theorem claim_c2_pinch_anchor (s : AppState) (env : Env)
    (x1 y1 x2 y2 ex ey dx dy w h p sd bs d tx ty : ℚ)
    (hpan : s.isPanning = false) (hpin : s.isPinching = true)
    (hscale : s.scale = J.fin p) (hp : p ≠ 0)
    (hsd : s.startDistance = J.fin sd) (hsd0 : sd ≠ 0)
    (hbs : s.baseScale = J.fin bs)
    (hdw : s.desWidth = J.fin w) (hdh : s.desHeight = J.fin h)
    (hpos : s.desPos = ⟨J.fin dx, J.fin dy⟩)
    (hex : env.rectX = J.fin ex) (hey : env.rectY = J.fin ey)
    (hguard : isPointInsideArea ⟨J.fin ((x1 + x2) / 2 - ex), J.fin ((y1 + y2) / 2 - ey)⟩
        ⟨J.fin dx, J.fin dy, J.fin (w * p), J.fin (h * p)⟩ = true)
    (hax : (x1 + x2) / 2 - ex = dx + tx * (w * p))
    (hay : (y1 + y2) / 2 - ey = dy + ty * (h * p)) :
    ∃ q dx2 dy2 : ℚ,
      touchmove s env [⟨J.fin x1, J.fin y1⟩, ⟨J.fin x2, J.fin y2⟩] (J.fin d) =
        Except.ok { s with
          pinchMidPoint := some ⟨J.fin ((x1 + x2) / 2 - ex), J.fin ((y1 + y2) / 2 - ey)⟩,
          scale := J.fin q,
          desPos := ⟨J.fin dx2, J.fin dy2⟩ } ∧
      dx2 + tx * (w * q) = (x1 + x2) / 2 - ex ∧
      dy2 + ty * (h * q) = (y1 + y2) / 2 - ey := by
  refine ⟨max (1/2) (min 10 (bs * (d / sd))),
          (x1 + x2) / 2 - ex -
            ((x1 + x2) / 2 - ex - dx) * (max (1/2) (min 10 (bs * (d / sd))) / p),
          (y1 + y2) / 2 - ey -
            ((y1 + y2) / 2 - ey - dy) * (max (1/2) (min 10 (bs * (d / sd))) / p),
          ?_, ?_, ?_⟩
  · simp [touchmove, hpan, pinchStep, hpin, List.get?, imageRectOf,
      hscale, hsd, hbs, hdw, hdh, hpos, hex, hey, hguard,
      jDiv_fin, hp, hsd0]
  · rw [hax]
    field_simp
    ring
  · rw [hay]
    field_simp
    ring

/-- The state for the C2 witness: pinching is active with
`startDistance = 10` (fingers 10 apart at gesture start) over the 100×100
image placement at the origin. -/
def c2State : AppState :=
  { baseState with isPinching := true, startDistance := J.fin 10 }

/-- Witness for C2: fingers at `(40, 50)` and `(60, 50)` (midpoint
`(50, 50)`, distance 20) double the scale, and the image point that was at
the midpoint stays at the midpoint. -/
theorem claim_c2_pinch_anchor_witness :
    ∃ q dx2 dy2 : ℚ,
      touchmove c2State env300 [⟨J.fin 40, J.fin 50⟩, ⟨J.fin 60, J.fin 50⟩] (J.fin 20) =
        Except.ok { c2State with
          pinchMidPoint := some ⟨J.fin ((40 + 60) / 2 - 0), J.fin ((50 + 50) / 2 - 0)⟩,
          scale := J.fin q,
          desPos := ⟨J.fin dx2, J.fin dy2⟩ } ∧
      dx2 + 1/2 * (100 * q) = (40 + 60) / 2 - 0 ∧
      dy2 + 1/2 * (100 * q) = (50 + 50) / 2 - 0 :=
  claim_c2_pinch_anchor c2State env300 40 50 60 50 0 0 0 0 100 100 1 10 1 20 (1/2) (1/2)
    rfl rfl rfl (by norm_num) rfl (by norm_num) rfl rfl rfl rfl rfl rfl
    (by norm_num [isPointInsideArea]) (by norm_num) (by norm_num)
